import Mathlib

/-!
# Task lifecycle state machine and scheduler of the agent system

A shallow embedding of the task/agent scheduling core of the repository
(`agent_system/agent_runner.py`, `agent_system/utils/persistence.py`,
`agent_system/reset_tasks.py`), together with proofs about the claims of the
specification.

Modelling conventions:

* Timestamps are natural numbers (seconds).  Python compares
  `datetime.now() - task.updated_at > timedelta(...)`; for `updated_at` in the
  future the Python difference is negative and the comparison is false, which
  agrees with truncated `Nat` subtraction (`now - t = 0`).
* Hours (`estimated_hours`, `actual_hours`) are stored in tenths of an hour so
  that the Python literals `0.1`, `0.5`, `1.0` become the naturals `1`, `5`,
  `10`.  No claim computes with hours.
* The SQLite `tasks` table is a list of rows kept in rowid order.  `save_task`
  executes `INSERT OR REPLACE`, which deletes any conflicting row and inserts a
  fresh row with a new largest rowid, so it is modelled as filter-out-then-append.
  `get_all_tasks` / `get_failed_tasks` issue `SELECT` without `ORDER BY`,
  returning rows in scan (rowid) order.  `reset_tasks.py` uses `UPDATE`, which
  keeps the rowid, hence is modelled as an in-place map.
* The external collaborators (the LLM call, `yaml.safe_load`, and
  `commit_agent_changes`) are inputs of the embedded functions: the embedding
  receives the parse outcome of the worker's text and the publish outcome and
  computes exactly what the Python control flow does with them.
-/

namespace AgentSystem

/-- Task lifecycle statuses used by the scheduler core (`agent_runner.py`,
`utils/persistence.py`, `tasks/roadmap_parser.py`, `dashboard.py`).
`agents/models.py` declares a divergent enum (READY/PR_READY/...) that the
scheduler logic never references; the spec (§9) records the two divergent
schemas and the state machine below is the one the scheduler code is written
against. -/
inductive TaskStatus where
  | PENDING
  | IN_PROGRESS
  | COMPLETED
  | FAILED
  | BLOCKED
  deriving DecidableEq, Repr

/-- One row of the `tasks` table exactly as created by `init_database` and
written by `save_task` in `utils/persistence.py`.  The table has no
`retry_count` column: `save_task` serialises exactly these fourteen fields. -/
structure TaskRecord where
  task_id : String
  title : String
  description : String
  acceptance_criteria : List String
  priority : Int
  assigned_agent_id : Option String
  status : TaskStatus
  dependencies : List String
  created_at : Nat
  updated_at : Nat
  estimated_hours : Nat
  actual_hours : Nat
  roadmap_phase : String
  artifacts : List String
  deriving DecidableEq, Repr

/-- The in-memory task object that flows through `agent_runner.py`: the
fourteen persisted fields plus the dynamically attached `retry_count`
attribute.  `agent_runner.py` writes it with
`task.retry_count = getattr(task, 'retry_count', 0) + 1`; on any object
freshly loaded from the database the attribute is absent (`none`) because
neither the table schema nor `get_task` mention it. -/
structure Task where
  task_id : String
  title : String
  description : String
  acceptance_criteria : List String
  priority : Int
  assigned_agent_id : Option String
  status : TaskStatus
  dependencies : List String
  created_at : Nat
  updated_at : Nat
  estimated_hours : Nat
  actual_hours : Nat
  roadmap_phase : String
  artifacts : List String
  retry_count : Option Nat
  deriving DecidableEq, Repr

/-- The projection performed by `save_task`: serialise the fourteen column
fields and drop everything else (in particular `retry_count`). -/
def Task.toRecord (t : Task) : TaskRecord :=
  { task_id := t.task_id
    title := t.title
    description := t.description
    acceptance_criteria := t.acceptance_criteria
    priority := t.priority
    assigned_agent_id := t.assigned_agent_id
    status := t.status
    dependencies := t.dependencies
    created_at := t.created_at
    updated_at := t.updated_at
    estimated_hours := t.estimated_hours
    actual_hours := t.actual_hours
    roadmap_phase := t.roadmap_phase
    artifacts := t.artifacts }

/-- The construction performed by `get_task` / `get_all_tasks`: rebuild a task
object from a row.  The loaded object has no `retry_count` attribute. -/
def TaskRecord.load (r : TaskRecord) : Task :=
  { task_id := r.task_id
    title := r.title
    description := r.description
    acceptance_criteria := r.acceptance_criteria
    priority := r.priority
    assigned_agent_id := r.assigned_agent_id
    status := r.status
    dependencies := r.dependencies
    created_at := r.created_at
    updated_at := r.updated_at
    estimated_hours := r.estimated_hours
    actual_hours := r.actual_hours
    roadmap_phase := r.roadmap_phase
    artifacts := r.artifacts
    retry_count := none }

/-- Agent state (`agents/models.py` AgentState, persisted verbatim by
`save_agent_state` / `get_agent_state`).  Of the open `memory` dictionary the
scheduler core only ever reads and writes the single key `"context"`
(`agent_runner.py` lines 263-264 and 416-418), modelled here as
`memory_context`. -/
structure AgentState where
  agent_id : String
  status : String
  current_task_id : Option String
  last_activity : Nat
  completed_tasks : List String
  memory_context : Option String
  deriving DecidableEq, Repr

/-- The shared SQLite database: the `tasks` and `agent_states` tables, each a
list of rows in rowid scan order. -/
structure Store where
  tasks : List TaskRecord
  agents : List AgentState
  deriving DecidableEq, Repr

/-- `save_task` (`utils/persistence.py`): `INSERT OR REPLACE INTO tasks`.
The conflicting row (same primary key) is deleted and the new row is inserted
with a fresh largest rowid, i.e. at the end of the scan order. -/
def saveTask (store : Store) (t : Task) : Store :=
  { store with
    tasks := (store.tasks.filter fun r => !decide (r.task_id = t.task_id)) ++ [t.toRecord] }

/-- `save_agent_state` (`utils/persistence.py`): `INSERT OR REPLACE INTO
agent_states`. -/
def saveAgentState (store : Store) (s : AgentState) : Store :=
  { store with
    agents := (store.agents.filter fun a => !decide (a.agent_id = s.agent_id)) ++ [s] }

/-- `get_task` (`utils/persistence.py`): `SELECT ... FROM tasks WHERE task_id = ?`. -/
def getTask (store : Store) (taskId : String) : Option Task :=
  (store.tasks.find? fun r => decide (r.task_id = taskId)).map TaskRecord.load

/-- `get_agent_state` (`utils/persistence.py`). -/
def getAgentState (store : Store) (agentId : String) : Option AgentState :=
  store.agents.find? fun a => decide (a.agent_id = agentId)

/-- `get_all_tasks` (`utils/persistence.py`): `SELECT` of every row, rebuilt
into task objects in scan order. -/
def getAllTasks (store : Store) : List Task :=
  store.tasks.map TaskRecord.load

/-- The dependency check inside `get_available_tasks` (`utils/persistence.py`
lines 318-324): every dependency id must resolve, via the first matching task
of the snapshot, to a task with status COMPLETED.  A missing id makes the
check false; the loop never recurses, so a dependency cycle merely leaves
every task of the cycle ineligible. -/
def dependenciesMet (allTasks : List Task) (t : Task) : Bool :=
  t.dependencies.all fun depId =>
    match allTasks.find? fun u => decide (u.task_id = depId) with
    | some depTask => decide (depTask.status = TaskStatus.COMPLETED)
    | none => false

/-- Comparison key of the final `sorted(available_tasks, key=lambda t: t.priority)`. -/
def priorityLE (a b : Task) : Prop := a.priority ≤ b.priority

instance : DecidableRel priorityLE := fun a b =>
  inferInstanceAs (Decidable (a.priority ≤ b.priority))

instance : IsTotal Task priorityLE := ⟨fun a b => Int.le_total a.priority b.priority⟩

instance : IsTrans Task priorityLE := ⟨fun _ _ _ h h' => le_trans h h'⟩

/-- The filtering pipeline of `get_available_tasks` before the sort: tasks of
the snapshot assigned to the agent, with status PENDING, whose dependencies
are all COMPLETED, in scan order. -/
def eligibleTasks (store : Store) (agentId : String) : List Task :=
  let allTasks := getAllTasks store
  (allTasks.filter fun t =>
      decide (t.assigned_agent_id = some agentId) && decide (t.status = TaskStatus.PENDING)).filter
    (dependenciesMet allTasks)

/-- `get_available_tasks` (`utils/persistence.py` lines 302-330).  Python's
`sorted` is a stable sort on the priority key; insertion sort with the total
preorder `priorityLE` is extensionally the same stable sort. -/
def getAvailableTasks (store : Store) (agentId : String) : List Task :=
  List.insertionSort priorityLE (eligibleTasks store agentId)

/-- The state-passing form of the query: `get_available_tasks` only executes
`SELECT` statements (through `get_all_tasks`) and closes its connection
without any write, so the store component is returned unchanged. -/
def getAvailableTasksOp (agentId : String) (store : Store) : List Task × Store :=
  (getAvailableTasks store agentId, store)

/-- Comparison key of `ORDER BY priority DESC` in `get_failed_tasks`
(`agent_runner.py` lines 544-558). -/
def priorityGE (a b : Task) : Prop := b.priority ≤ a.priority

instance : DecidableRel priorityGE := fun a b =>
  inferInstanceAs (Decidable (b.priority ≤ a.priority))

/-- `get_failed_tasks` (`agent_runner.py` lines 535-558): the FAILED tasks of
one agent, ordered by priority descending.  SQLite does not promise any order
among equal keys; the theorems below use only membership and head existence,
which are independent of the tie order. -/
def getFailedTasks (store : Store) (agentId : String) : List Task :=
  List.insertionSort priorityGE
    ((store.tasks.filter fun r =>
        decide (r.assigned_agent_id = some agentId) &&
          decide (r.status = TaskStatus.FAILED)).map TaskRecord.load)

/-- `update_task_status` of the reset tooling (`reset_tasks.py` lines 47-60):
a plain SQL `UPDATE`, which keeps the rowid, hence an in-place map. -/
def resetUpdateTaskStatus (store : Store) (taskId : String) (newStatus : TaskStatus)
    (now : Nat) : Store :=
  { store with
    tasks := store.tasks.map fun r =>
      if r.task_id = taskId then { r with status := newStatus, updated_at := now } else r }

/-- The primary-key constraint of the `tasks` table: row keys are distinct. -/
def TasksNodupKeys (store : Store) : Prop :=
  (store.tasks.map TaskRecord.task_id).Nodup

instance (store : Store) : Decidable (TasksNodupKeys store) :=
  inferInstanceAs (Decidable (List.Nodup _))

/-- The DependencyResolver and Scheduler filter exactly as the spec words it
(§4.2, §4.3 step 3): assigned to the agent, status PENDING, and every
dependency id names a COMPLETED task of the snapshot. -/
def specEligible (allTasks : List Task) (agentId : String) (t : Task) : Prop :=
  t.status = TaskStatus.PENDING ∧ t.assigned_agent_id = some agentId ∧
    ∀ depId ∈ t.dependencies,
      ∃ u ∈ allTasks, u.task_id = depId ∧ u.status = TaskStatus.COMPLETED



section Execution

/-- One entry of the `file_changes` list in the parsed YAML payload.  The code
reads exactly `change.get("path")` and `change.get("content")`
(`agent_runner.py` lines 354-356); a missing key is `none`. -/
structure FileChange where
  path : Option String
  content : Option String
  deriving DecidableEq, Repr

/-- The keys of a parsed YAML mapping that `process_agent_response` reads:
`file_changes` (absent or a list), `reasoning`, and `message.summary`. -/
structure YamlDoc where
  file_changes : Option (List FileChange)
  reasoning : Option String
  message_summary : Option String
  deriving DecidableEq, Repr

/-- Outcome of `yaml.safe_load` on the (extracted) YAML section of the worker's
text, classified by how `process_agent_response` reacts to it:
`perror` — `safe_load` raised, so control jumps to the handler at line 427;
`falsy` — `safe_load` returned a falsy value (`None`, empty), line 330;
`scalar` — a truthy non-mapping value (YAML parses ordinary prose to a plain
string scalar), on which `parsed.get(...)` raises `AttributeError`, again
reaching the handler at line 427;
`mapping` — a mapping, the structured-payload path. -/
inductive ParseOutcome where
  | perror
  | falsy
  | scalar
  | mapping (doc : YamlDoc)
  deriving DecidableEq, Repr

/-- A worker (LLM) response as observed by `process_agent_response`: whether
the raw text contains the substrings `"TASK COMPLETED"` and
`"BLOCKED"`/`"BLOCKER"`, and what `yaml.safe_load` makes of it. -/
structure WorkerResponse where
  hasTaskCompletedMarker : Bool
  hasBlockedMarker : Bool
  parsed : ParseOutcome
  deriving DecidableEq, Repr

/-- The result dictionary returned by `execute_task` / `process_agent_response`
as consumed by `run_agent`: the `status` string, `hours` (tenths), the
`artifacts` key (absent or a list), the `error` key, and the new
`memory["context"]` value written during processing, when any. -/
structure ExecResult where
  status : String
  hours : Nat
  artifacts : Option (List String)
  errorMsg : Option String
  newContext : Option String
  deriving DecidableEq, Repr

/-- Lines 309-315 of `agent_runner.py`: the completion marker scan. -/
def markerStatus (resp : WorkerResponse) : String :=
  if resp.hasTaskCompletedMarker then "completed"
  else if resp.hasBlockedMarker then "blocked"
  else "in_progress"

/-- `process_agent_response` (`agent_runner.py` lines 292-434).  `isAllowed`
combines `is_path_allowed` and the directory-creation success of lines 363-377
(a disallowed path or a failed `mkdir` skips the change); `publish` is the
outcome of `commit_agent_changes`, which either returns a PR URL or raises, in
which case the code falls back to local writes and continues without any
artifact. -/
def processAgentResponse (resp : WorkerResponse) (isAllowed : String → Bool)
    (publish : Except String String) : ExecResult :=
  let status := markerStatus resp
  match resp.parsed with
  | .perror => ⟨status, 5, none, some "processing exception", none⟩
  | .scalar => ⟨status, 5, none, some "processing exception", none⟩
  | .falsy => ⟨"failed", 5, none, some "Failed to parse agent response format", none⟩
  | .mapping doc =>
    match doc.file_changes with
    | none =>
      ⟨"failed", 1, none, some "No file changes provided - each task must include code changes",
        none⟩
    | some changes =>
      if changes.isEmpty then
        ⟨"failed", 1, none, some "No file changes provided - each task must include code changes",
          none⟩
      else
        let fileChanges := changes.filterMap fun c =>
          match c.path, c.content with
          | some p, some ct => if isAllowed p then some (p, ct) else none
          | _, _ => none
        if fileChanges.isEmpty then ⟨status, 5, none, none, doc.reasoning⟩
        else
          match publish with
          | .ok prUrl => ⟨status, 10, some [prUrl], none, none⟩
          | .error _ => ⟨status, 5, none, none, doc.reasoning⟩

/-- Lines 143-186 of `run_agent`: the `try`/`except`/`finally` block that
interprets the execution result, starting from the claimed task `task1` and
the working agent state `state1`.  The `exec` argument is the outcome of
`execute_task`: `.ok` a result dictionary, `.error` an exception escaping it.
Returns the final task and agent state exactly as they are saved. -/
def runAgentFinish (task1 : Task) (state1 : AgentState) (exec : Except String ExecResult)
    (now : Nat) : Task × AgentState :=
  let step :=
    match exec with
    | .ok result =>
      let state1 :=
        { state1 with
          memory_context :=
            match result.newContext with
            | some c => some c
            | none => state1.memory_context }
      if result.status = "completed" then
        ({ task1 with
            status := TaskStatus.COMPLETED
            actual_hours := result.hours
            artifacts :=
              match result.artifacts with
              | some arts => arts
              | none => task1.artifacts
            updated_at := now },
          { state1 with completed_tasks := state1.completed_tasks ++ [task1.task_id] })
      else if result.status = "failed" then
        ({ task1 with status := TaskStatus.FAILED, updated_at := now }, state1)
      else if result.status = "blocked" then
        ({ task1 with status := TaskStatus.BLOCKED, updated_at := now }, state1)
      else ({ task1 with updated_at := now }, state1)
    | .error _ => ({ task1 with status := TaskStatus.FAILED, updated_at := now }, state1)
  let task2 := step.1
  let state3 :=
    { step.2 with
      status := "idle"
      current_task_id :=
        if task2.status = TaskStatus.COMPLETED ∨ task2.status = TaskStatus.FAILED then none
        else some task2.task_id
      last_activity := now }
  (task2, state3)

/-- Lines 108-125 of `run_agent`: which task the run works on — the explicit
task id, else the agent's current task, else the head of the available-task
list. -/
def resolveTask (store : Store) (state : AgentState) (agentId : String)
    (taskId : Option String) : Option Task :=
  match taskId with
  | some tid => getTask store tid
  | none =>
    match state.current_task_id with
    | some cid => getTask store cid
    | none => (getAvailableTasks store agentId).head?

/-- `run_agent` (`agent_runner.py` lines 89-186) at store level.  `roster` is
the key set of `AGENT_MAP`; each early-exit (`logger.error` + `return`) leaves
the store untouched.  The claim writes of lines 127-137 are saved first, then
the try/except/finally result. -/
def runAgent (store : Store) (roster : List String) (agentId : String)
    (taskId : Option String) (exec : Except String ExecResult) (now : Nat) : Store :=
  if agentId ∈ roster then
    match getAgentState store agentId with
    | none => store
    | some state0 =>
      match resolveTask store state0 agentId taskId with
      | none => store
      | some task0 =>
        let state1 :=
          { state0 with
            current_task_id := some task0.task_id
            status := "working"
            last_activity := now }
        let store1 := saveAgentState store state1
        let claimed :=
          if task0.status = TaskStatus.PENDING then
            let t := { task0 with status := TaskStatus.IN_PROGRESS, updated_at := now }
            (t, saveTask store1 t)
          else (task0, store1)
        let fin := runAgentFinish claimed.1 state1 exec now
        saveAgentState (saveTask claimed.2 fin.1) fin.2
  else store

/-- The read phase of a claim attempt: `run_agent` invoked without an explicit
task id reads the agent state and resolves the task (lines 103-125), with no
write in between. -/
def coordRead (store : Store) (agentId : String) : Option (AgentState × Task) :=
  match getAgentState store agentId with
  | none => none
  | some st =>
    match resolveTask store st agentId none with
    | none => none
    | some t => some (st, t)

/-- The write phase of a claim attempt (`run_agent` lines 127-137), applied
with the locally held state and task from the read phase: mark the agent
working on the task, and flip the task PENDING → IN_PROGRESS if the local
copy was PENDING. -/
def coordWrite (store : Store) (st : AgentState) (t : Task)
    (now : Nat) : Store :=
  if t.status = TaskStatus.PENDING then
    saveTask
      (saveAgentState store
        { st with current_task_id := some t.task_id, status := "working", last_activity := now })
      { t with status := TaskStatus.IN_PROGRESS, updated_at := now }
  else
    saveAgentState store
      { st with current_task_id := some t.task_id, status := "working", last_activity := now }

/-- The guard of `run_all_agents` (line 451): an agent whose persisted status
is `"working"` is skipped by the scheduling pass. -/
def schedulerSkips (store : Store) (agentId : String) : Bool :=
  match getAgentState store agentId with
  | some st => decide (st.status = "working")
  | none => false

/-- The stall threshold of `check_stalled_tasks`: `timedelta(hours=2)`. -/
def stallThreshold : Nat := 7200

/-- The per-task execution timeout of `run_all_agents`: `TASK_TIMEOUT_HOURS`
(default 24 hours, `config.py` line 29). -/
def taskTimeoutSecs : Nat := 86400

/-- The reset written both by the stall sweep (lines 529-531) and by the retry
path (lines 485-487): status to PENDING, `updated_at` stamped, and
`task.retry_count = getattr(task, 'retry_count', 0) + 1`. -/
def resetToPending (now : Nat) (t : Task) : Task :=
  { t with
    status := TaskStatus.PENDING
    updated_at := now
    retry_count := some (t.retry_count.getD 0 + 1) }

/-- The body of the loop of `check_stalled_tasks` (lines 511-532) for one task
`t` of the initial snapshot: if `t` was stalled, clear the owning agent when
its `current_task_id` matches, then save the reset task. -/
def sweepOne (now : Nat) (store : Store) (t : Task) : Store :=
  if stallThreshold < now - t.updated_at then
    let store1 :=
      match t.assigned_agent_id with
      | none => store
      | some aid =>
        match getAgentState store aid with
        | none => store
        | some st =>
          if st.current_task_id = some t.task_id then
            saveAgentState store
              { st with current_task_id := none, status := "idle", last_activity := now }
          else store
    saveTask store1 (resetToPending now t)
  else store

/-- `check_stalled_tasks` (`agent_runner.py` lines 505-532): iterate over the
IN_PROGRESS tasks of one initial snapshot, resetting each stalled one. -/
def checkStalledTasks (now : Nat) (store : Store) : Store :=
  let snapshot := (getAllTasks store).filter fun t => decide (t.status = TaskStatus.IN_PROGRESS)
  snapshot.foldl (sweepOne now) store

/-- The retry branch of `run_all_agents` (lines 479-496): take the head of the
failed-task list, reset it, and persist the reset only when the incremented
`retry_count` is at most 3; otherwise give up without saving.  Returns the
task that was reset and handed to `run_agent`, when any. -/
def retryStep (store : Store) (agentId : String) (now : Nat) : Store × Option Task :=
  match (getFailedTasks store agentId).head? with
  | none => (store, none)
  | some t0 =>
    let t1 := resetToPending now t0
    if t1.retry_count.getD 0 ≤ 3 then (saveTask store t1, some t1)
    else (store, none)

/-- Lines 476-502 of `run_all_agents`: run the head available task, else try
the retry branch, else do nothing. -/
def availOrRetry (roster : List String) (execs : String → Except String ExecResult)
    (now : Nat) (store : Store) (agentId : String) : Store :=
  match (getAvailableTasks store agentId).head? with
  | some t => runAgent store roster agentId (some t.task_id) (execs agentId) now
  | none =>
    match retryStep store agentId now with
    | (store1, some t1) => runAgent store1 roster agentId (some t1.task_id) (execs agentId) now
    | (_, none) => store

/-- The per-agent body of `run_all_agents` (lines 443-502): initialise a
missing state, skip working agents, resume or time out the current
IN_PROGRESS task, else fall through to the available/retry logic.  A timed-out
task is marked FAILED, the agent cleared, and control falls through to the
available check (there is no `continue` after the timeout branch). -/
def runAllAgentsStep (roster : List String) (execs : String → Except String ExecResult)
    (now : Nat) (store : Store) (agentId : String) : Store :=
  let start :=
    match getAgentState store agentId with
    | some st => (store, st)
    | none =>
      let st : AgentState :=
        { agent_id := agentId, status := "idle", current_task_id := none,
          last_activity := now, completed_tasks := [], memory_context := none }
      (saveAgentState store st, st)
  let store0 := start.1
  let state := start.2
  if state.status = "working" then store0
  else
    match state.current_task_id with
    | some cid =>
      (match getTask store0 cid with
        | some t =>
          if t.status = TaskStatus.IN_PROGRESS then
            if taskTimeoutSecs < now - t.updated_at then
              let store1 := saveTask store0 { t with status := TaskStatus.FAILED, updated_at := now }
              let store2 :=
                saveAgentState store1
                  { state with current_task_id := none, status := "idle", last_activity := now }
              availOrRetry roster execs now store2 agentId
            else runAgent store0 roster agentId (some t.task_id) (execs agentId) now
          else availOrRetry roster execs now store0 agentId
        | none => availOrRetry roster execs now store0 agentId)
    | none => availOrRetry roster execs now store0 agentId

/-- `run_all_agents` (`agent_runner.py` lines 437-502): the stall sweep runs
first, then every agent of the roster is scheduled against the swept store. -/
def runAllAgents (roster : List String) (execs : String → Except String ExecResult)
    (now : Nat) (store : Store) : Store :=
  (checkStalledTasks now store) |> fun store1 =>
    roster.foldl (fun s aid => runAllAgentsStep roster execs now s aid) store1

end Execution

section Examples

/-- A store holding one PENDING task `t1` for agent `a1` (used by several
example evaluations): the record below is the task row. -/
def onePendingRecord : TaskRecord :=
  { task_id := "t1", title := "api", description := "", acceptance_criteria := [],
    priority := 1, assigned_agent_id := some "a1", status := TaskStatus.PENDING,
    dependencies := [], created_at := 0, updated_at := 0, estimated_hours := 10,
    actual_hours := 0, roadmap_phase := "phase1", artifacts := [] }

/-- The idle agent `a1` of the example stores. -/
def onePendingAgent : AgentState :=
  { agent_id := "a1", status := "idle", current_task_id := none, last_activity := 0,
    completed_tasks := [], memory_context := none }

/-- The example store with the single PENDING task and the idle agent. -/
def onePendingStore : Store :=
  { tasks := [onePendingRecord], agents := [onePendingAgent] }

/-- An example store for the witness: `t0` is COMPLETED, `t1` is PENDING for
agent `a1` and depends on `t0`, `t2` is PENDING for `a1` but depends on a
missing id, and `t3`/`t4` form a dependency cycle. -/
def c2Store : Store :=
  { tasks :=
      [ { task_id := "t0", title := "bootstrap", description := "", acceptance_criteria := [],
          priority := 1, assigned_agent_id := some "a1", status := TaskStatus.COMPLETED,
          dependencies := [], created_at := 0, updated_at := 0, estimated_hours := 10,
          actual_hours := 10, roadmap_phase := "phase0", artifacts := ["http://pr/0"] },
        { task_id := "t1", title := "api", description := "", acceptance_criteria := [],
          priority := 2, assigned_agent_id := some "a1", status := TaskStatus.PENDING,
          dependencies := ["t0"], created_at := 1, updated_at := 1, estimated_hours := 10,
          actual_hours := 0, roadmap_phase := "phase1", artifacts := [] },
        { task_id := "t2", title := "ui", description := "", acceptance_criteria := [],
          priority := 1, assigned_agent_id := some "a1", status := TaskStatus.PENDING,
          dependencies := ["ghost"], created_at := 2, updated_at := 2, estimated_hours := 10,
          actual_hours := 0, roadmap_phase := "phase1", artifacts := [] },
        { task_id := "t3", title := "cyc-a", description := "", acceptance_criteria := [],
          priority := 1, assigned_agent_id := some "a1", status := TaskStatus.PENDING,
          dependencies := ["t4"], created_at := 3, updated_at := 3, estimated_hours := 10,
          actual_hours := 0, roadmap_phase := "phase1", artifacts := [] },
        { task_id := "t4", title := "cyc-b", description := "", acceptance_criteria := [],
          priority := 1, assigned_agent_id := some "a1", status := TaskStatus.PENDING,
          dependencies := ["t3"], created_at := 4, updated_at := 4, estimated_hours := 10,
          actual_hours := 0, roadmap_phase := "phase1", artifacts := [] } ],
    agents :=
      [ { agent_id := "a1", status := "idle", current_task_id := none, last_activity := 0,
          completed_tasks := ["t0"], memory_context := none } ] }

/-- A FAILED task row for the retry-path evaluations. -/
def failedRecord : TaskRecord :=
  { task_id := "t1", title := "api", description := "", acceptance_criteria := [],
    priority := 5, assigned_agent_id := some "a1", status := TaskStatus.FAILED,
    dependencies := [], created_at := 0, updated_at := 0, estimated_hours := 10,
    actual_hours := 0, roadmap_phase := "phase1", artifacts := [] }

/-- Store with the single FAILED task and the idle agent. -/
def failedStore : Store :=
  { tasks := [failedRecord], agents := [onePendingAgent] }

/-- One complete fail-then-retry round on a task: the failure persistence of
`run_agent` (lines 178-180: status FAILED, `updated_at` stamped, saved)
followed by the retry branch of the next `run_all_agents` pass. -/
def failRetryCycle (now : Nat) (agentId taskId : String) (store : Store) : Store :=
  let failed :=
    match getTask store taskId with
    | some t => saveTask store { t with status := TaskStatus.FAILED, updated_at := now }
    | none => store
  (retryStep failed agentId now).1

/-- Iterated fail-then-retry rounds. -/
def spinCycles (now : Nat) (agentId taskId : String) : Nat → Store → Store
  | 0, s => s
  | n + 1, s => spinCycles now agentId taskId n (failRetryCycle now agentId taskId s)

/-- The store every fail-then-retry round returns to: the task is PENDING
again with `updated_at` 9 and, the store having no retry column, no memory of
how often it failed. -/
def spunStore : Store :=
  { tasks := [{ failedRecord with status := TaskStatus.PENDING, updated_at := 9 }],
    agents := [onePendingAgent] }

/-- A stalled IN_PROGRESS task row (`updated_at` three hours before the sweep
at `now = 10800`). -/
def stalledRecord : TaskRecord :=
  { task_id := "t3", title := "etl", description := "", acceptance_criteria := [],
    priority := 1, assigned_agent_id := some "a1", status := TaskStatus.IN_PROGRESS,
    dependencies := [], created_at := 0, updated_at := 0, estimated_hours := 10,
    actual_hours := 0, roadmap_phase := "phase1", artifacts := [] }

/-- Store with the stalled task, owned by agent `a1` (working, current task
`t3`). -/
def stalledStore : Store :=
  { tasks := [stalledRecord],
    agents :=
      [ { agent_id := "a1", status := "working", current_task_id := some "t3",
          last_activity := 0, completed_tasks := [], memory_context := none } ] }

/-- Two equal-priority tasks for the ordering evaluation: `t1` was created
first but is IN_PROGRESS and stalled; `t2` was created second and is
PENDING. -/
def orderStore : Store :=
  { tasks :=
      [ { task_id := "t1", title := "first", description := "", acceptance_criteria := [],
          priority := 5, assigned_agent_id := some "a1", status := TaskStatus.IN_PROGRESS,
          dependencies := [], created_at := 0, updated_at := 0, estimated_hours := 10,
          actual_hours := 0, roadmap_phase := "phase1", artifacts := [] },
        { task_id := "t2", title := "second", description := "", acceptance_criteria := [],
          priority := 5, assigned_agent_id := some "a1", status := TaskStatus.PENDING,
          dependencies := [], created_at := 1, updated_at := 1, estimated_hours := 10,
          actual_hours := 0, roadmap_phase := "phase1", artifacts := [] } ],
    agents := [onePendingAgent] }

/-- A COMPLETED task row with a persisted artifact. -/
def completedRecord : TaskRecord :=
  { task_id := "t1", title := "api", description := "", acceptance_criteria := [],
    priority := 1, assigned_agent_id := some "a1", status := TaskStatus.COMPLETED,
    dependencies := [], created_at := 0, updated_at := 0, estimated_hours := 10,
    actual_hours := 10, roadmap_phase := "phase1", artifacts := ["http://pr/1"] }

/-- Store with the COMPLETED task and the idle agent. -/
def completedStore : Store :=
  { tasks := [completedRecord], agents := [onePendingAgent] }

/-- An execution result reporting failure (as `execute_task` returns after a
worker error). -/
def failResult : ExecResult :=
  { status := "failed", hours := 5, artifacts := none,
    errorMsg := some "worker reported failure", newContext := none }

/-- A worker response carrying the `TASK COMPLETED` marker and a parseable
payload whose single file change has a `path` but no `content` — exactly what
`yaml.safe_load` yields on
`TASK COMPLETED` followed by a fenced block `file_changes: [{path: docs/notes.md}]`. -/
def respNoContent : WorkerResponse :=
  { hasTaskCompletedMarker := true, hasBlockedMarker := false,
    parsed :=
      ParseOutcome.mapping
        { file_changes := some [{ path := some "docs/notes.md", content := none }],
          reasoning := some "documentation only", message_summary := some "done" } }

/-- A worker response that is plain free text: no markers, and `yaml.safe_load`
parses ordinary prose (for example `hello world`) to a truthy string scalar,
not a mapping. -/
def respFreeText : WorkerResponse :=
  { hasTaskCompletedMarker := false, hasBlockedMarker := false,
    parsed := ParseOutcome.scalar }

/-- A worker response whose text yields a falsy parse (for example the empty
string). -/
def respFalsy : WorkerResponse :=
  { hasTaskCompletedMarker := false, hasBlockedMarker := false,
    parsed := ParseOutcome.falsy }

end Examples

section Lemmas

/-- Removing elements that a predicate cannot match does not change `find?`. -/
theorem find?_filter_of_imp {α : Type} (l : List α) (p q : α → Bool)
    (h : ∀ a, p a = true → q a = true) : (l.filter q).find? p = l.find? p := by
  induction l with
  | nil => rfl
  | cons a l ih =>
    by_cases hq : q a = true
    · rw [List.filter_cons_of_pos hq]
      by_cases hp : p a = true
      · rw [List.find?_cons_of_pos _ hp, List.find?_cons_of_pos _ hp]
      · rw [List.find?_cons_of_neg _ hp, List.find?_cons_of_neg _ hp, ih]
    · rw [List.filter_cons_of_neg hq]
      have hp : ¬ p a = true := fun hpa => hq (h a hpa)
      rw [List.find?_cons_of_neg _ hp, ih]

/-- Effect of `save_task` on a later `get_task`. -/
theorem getTask_saveTask (store : Store) (t : Task) (taskId : String) :
    getTask (saveTask store t) taskId =
      if t.task_id = taskId then some (TaskRecord.load t.toRecord)
      else getTask store taskId := by
  unfold getTask saveTask
  rw [List.find?_append]
  by_cases h : t.task_id = taskId
  · subst h
    have hnone :
        (store.tasks.filter fun r => !decide (r.task_id = t.task_id)).find?
          (fun r => decide (r.task_id = t.task_id)) = none := by
      rw [List.find?_eq_none]
      intro r hr
      have := List.of_mem_filter hr
      simpa using this
    simp [hnone, Task.toRecord, TaskRecord.load]
  · have heq :
        (store.tasks.filter fun r => !decide (r.task_id = t.task_id)).find?
          (fun r => decide (r.task_id = taskId)) =
        store.tasks.find? (fun r => decide (r.task_id = taskId)) := by
      apply find?_filter_of_imp
      intro a ha
      have : a.task_id = taskId := of_decide_eq_true ha
      simp [this, h, fun hc : t.task_id = taskId => h hc]
      intro hc
      exact h (hc ▸ rfl)
    rw [heq]
    cases hfind : store.tasks.find? (fun r => decide (r.task_id = taskId)) with
    | none =>
      have : (List.find? (fun r => decide (r.task_id = taskId)) [t.toRecord]) = none := by
        simp [List.find?, Task.toRecord, h]
      simp [this, h]
    | some r => simp [h]

/-- `save_task` does not touch the `agent_states` table. -/
theorem agents_saveTask (store : Store) (t : Task) : (saveTask store t).agents = store.agents :=
  rfl

/-- `save_agent_state` does not touch the `tasks` table. -/
theorem tasks_saveAgentState (store : Store) (s : AgentState) :
    (saveAgentState store s).tasks = store.tasks :=
  rfl

/-- Effect of `save_agent_state` on a later `get_agent_state`. -/
theorem getAgentState_saveAgentState (store : Store) (s : AgentState) (agentId : String) :
    getAgentState (saveAgentState store s) agentId =
      if s.agent_id = agentId then some s else getAgentState store agentId := by
  unfold getAgentState saveAgentState
  rw [List.find?_append]
  by_cases h : s.agent_id = agentId
  · subst h
    have hnone :
        (store.agents.filter fun a => !decide (a.agent_id = s.agent_id)).find?
          (fun a => decide (a.agent_id = s.agent_id)) = none := by
      rw [List.find?_eq_none]
      intro a ha
      have := List.of_mem_filter ha
      simpa using this
    simp [hnone]
  · have heq :
        (store.agents.filter fun a => !decide (a.agent_id = s.agent_id)).find?
          (fun a => decide (a.agent_id = agentId)) =
        store.agents.find? (fun a => decide (a.agent_id = agentId)) := by
      apply find?_filter_of_imp
      intro a ha
      have : a.agent_id = agentId := of_decide_eq_true ha
      simp [this]
      intro hc
      exact h (hc ▸ rfl)
    rw [heq]
    cases hfind : store.agents.find? (fun a => decide (a.agent_id = agentId)) with
    | none => simp [List.find?, h]
    | some a => simp [h]

/-- A found task carries the id it was looked up by. -/
theorem getTask_task_id {store : Store} {taskId : String} {t : Task}
    (h : getTask store taskId = some t) : t.task_id = taskId := by
  unfold getTask at h
  cases hfind : store.tasks.find? (fun r => decide (r.task_id = taskId)) with
  | none => rw [hfind] at h; simp at h
  | some r =>
    rw [hfind] at h
    have hp := List.find?_some hfind
    have : r.task_id = taskId := of_decide_eq_true hp
    simp at h
    rw [← h]
    exact this

/-- A found agent state carries the id it was looked up by. -/
theorem getAgentState_agent_id {store : Store} {agentId : String} {s : AgentState}
    (h : getAgentState store agentId = some s) : s.agent_id = agentId := by
  unfold getAgentState at h
  have hp := List.find?_some h
  exact of_decide_eq_true hp

/-- Loading a saved task forgets exactly the `retry_count` attribute. -/
theorem load_toRecord (t : Task) :
    TaskRecord.load t.toRecord = { t with retry_count := none } :=
  rfl

/-- Every task object produced by a database read has no `retry_count`. -/
theorem retry_count_load (r : TaskRecord) : (TaskRecord.load r).retry_count = none :=
  rfl

end Lemmas

section SchedulerLemmas

/-- The dependency loop of `get_available_tasks`, characterised: with distinct
task ids the first-match lookup agrees with plain existence. -/
theorem dependenciesMet_iff (allTasks : List Task)
    (hn : (allTasks.map Task.task_id).Nodup) (t : Task) :
    dependenciesMet allTasks t = true ↔
      ∀ depId ∈ t.dependencies, ∃ u ∈ allTasks,
        u.task_id = depId ∧ u.status = TaskStatus.COMPLETED := by
  unfold dependenciesMet
  rw [List.all_eq_true]
  constructor
  · intro h depId hdep
    have hh := h depId hdep
    cases hfind : allTasks.find? (fun u => decide (u.task_id = depId)) with
    | none => rw [hfind] at hh; simp at hh
    | some u =>
      rw [hfind] at hh
      have hu : u ∈ allTasks := List.mem_of_find?_eq_some hfind
      have hp := List.find?_some hfind
      have hid : u.task_id = depId := of_decide_eq_true hp
      exact ⟨u, hu, hid, of_decide_eq_true hh⟩
  · intro h depId hdep
    obtain ⟨u, hu, hid, hstatus⟩ := h depId hdep
    cases hfind : allTasks.find? (fun v => decide (v.task_id = depId)) with
    | none =>
      have := List.find?_eq_none.mp hfind u hu
      simp [hid] at this
    | some v =>
      have hv : v ∈ allTasks := List.mem_of_find?_eq_some hfind
      have hp := List.find?_some hfind
      have hvid : v.task_id = depId := of_decide_eq_true hp
      have hvu : v = u := List.inj_on_of_nodup_map hn hv hu (by rw [hvid, hid])
      simp [hvu, hstatus]

/-- Task ids of the loaded snapshot are the row keys. -/
theorem map_task_id_getAllTasks (store : Store) :
    (getAllTasks store).map Task.task_id = store.tasks.map TaskRecord.task_id := by
  unfold getAllTasks
  rw [List.map_map]
  rfl

/-- Membership in the available-task list, characterised against the spec's
eligibility predicate (needs the primary-key constraint so that the
first-match dependency lookup is unambiguous). -/
theorem mem_getAvailableTasks_iff (store : Store) (agentId : String) (t : Task)
    (hkeys : TasksNodupKeys store) :
    t ∈ getAvailableTasks store agentId ↔
      t ∈ getAllTasks store ∧ specEligible (getAllTasks store) agentId t := by
  have hperm := List.perm_insertionSort priorityLE (eligibleTasks store agentId)
  rw [getAvailableTasks, hperm.mem_iff]
  have hn : ((getAllTasks store).map Task.task_id).Nodup := by
    rw [map_task_id_getAllTasks]; exact hkeys
  unfold eligibleTasks specEligible
  simp only [List.mem_filter, Bool.and_eq_true, decide_eq_true_eq,
    dependenciesMet_iff _ hn t]
  tauto

end SchedulerLemmas

section ClaimC2

/-- C2: a task is returned as available if and only if its status is PENDING,
it is assigned to the agent, and every dependency id names a COMPLETED task of
the snapshot; missing dependency ids and dependency cycles just fail the
membership condition — `getAvailableTasks` is a total function, so no
exception can be raised. -/
theorem C2_available_iff (store : Store) (agentId : String) (t : Task)
    (hkeys : TasksNodupKeys store) :
    t ∈ getAvailableTasks store agentId ↔
      t ∈ getAllTasks store ∧ t.status = TaskStatus.PENDING ∧
        t.assigned_agent_id = some agentId ∧
        ∀ depId ∈ t.dependencies,
          ∃ u ∈ getAllTasks store, u.task_id = depId ∧ u.status = TaskStatus.COMPLETED :=
  mem_getAvailableTasks_iff store agentId t hkeys

/-- Witness for C2 at a concrete store: the eligible task `t1` (dependency
COMPLETED) is available; evaluation shows the characterisation holds there. -/
theorem C2_available_iff_witness :
    TasksNodupKeys c2Store ∧
      ((TaskRecord.load
            { task_id := "t1", title := "api", description := "", acceptance_criteria := [],
              priority := 2, assigned_agent_id := some "a1", status := TaskStatus.PENDING,
              dependencies := ["t0"], created_at := 1, updated_at := 1, estimated_hours := 10,
              actual_hours := 0, roadmap_phase := "phase1", artifacts := [] }) ∈
          getAvailableTasks c2Store "a1" ↔
        (TaskRecord.load
            { task_id := "t1", title := "api", description := "", acceptance_criteria := [],
              priority := 2, assigned_agent_id := some "a1", status := TaskStatus.PENDING,
              dependencies := ["t0"], created_at := 1, updated_at := 1, estimated_hours := 10,
              actual_hours := 0, roadmap_phase := "phase1", artifacts := [] }) ∈
            getAllTasks c2Store ∧
          (TaskRecord.load
              { task_id := "t1", title := "api", description := "", acceptance_criteria := [],
                priority := 2, assigned_agent_id := some "a1", status := TaskStatus.PENDING,
                dependencies := ["t0"], created_at := 1, updated_at := 1, estimated_hours := 10,
                actual_hours := 0, roadmap_phase := "phase1", artifacts := [] }).status =
              TaskStatus.PENDING ∧
          (TaskRecord.load
              { task_id := "t1", title := "api", description := "", acceptance_criteria := [],
                priority := 2, assigned_agent_id := some "a1", status := TaskStatus.PENDING,
                dependencies := ["t0"], created_at := 1, updated_at := 1, estimated_hours := 10,
                actual_hours := 0, roadmap_phase := "phase1", artifacts := [] }).assigned_agent_id =
              some "a1" ∧
          ∀ depId ∈
            (TaskRecord.load
                { task_id := "t1", title := "api", description := "", acceptance_criteria := [],
                  priority := 2, assigned_agent_id := some "a1", status := TaskStatus.PENDING,
                  dependencies := ["t0"], created_at := 1, updated_at := 1, estimated_hours := 10,
                  actual_hours := 0, roadmap_phase := "phase1", artifacts := [] }).dependencies,
            ∃ u ∈ getAllTasks c2Store, u.task_id = depId ∧ u.status = TaskStatus.COMPLETED) :=
  ⟨by decide, C2_available_iff c2Store "a1" _ (by decide)⟩

end ClaimC2

section ClaimC10

/-- C10: the next-task query is idempotent and write-free — the state-passing
form of `get_available_tasks` returns the store unchanged, and a second call
with no intervening mutation returns the same ordered list and hence the same
head. -/
theorem C10_query_idempotent_pure (store : Store) (agentId : String) :
    (getAvailableTasksOp agentId store).2 = store ∧
      (getAvailableTasksOp agentId (getAvailableTasksOp agentId store).2).1 =
        (getAvailableTasksOp agentId store).1 ∧
      (getAvailableTasksOp agentId (getAvailableTasksOp agentId store).2).1.head? =
        (getAvailableTasksOp agentId store).1.head? :=
  ⟨rfl, rfl, rfl⟩

end ClaimC10

section RunAgentLemmas

/-- `save_agent_state` leaves every task readable unchanged. -/
theorem getTask_saveAgentState (store : Store) (s : AgentState) (taskId : String) :
    getTask (saveAgentState store s) taskId = getTask store taskId :=
  rfl

/-- `save_task` leaves every agent state readable unchanged. -/
theorem getAgentState_saveTask (store : Store) (t : Task) (agentId : String) :
    getAgentState (saveTask store t) agentId = getAgentState store agentId :=
  rfl

/-- The try/except/finally block keeps the task id. -/
theorem runAgentFinish_task_id (t : Task) (s : AgentState) (e : Except String ExecResult)
    (n : Nat) : (runAgentFinish t s e n).1.task_id = t.task_id := by
  unfold runAgentFinish
  cases e with
  | ok r =>
    dsimp only
    split_ifs <;> rfl
  | error msg => rfl

/-- The finally clause of `run_agent`, characterised: the agent is always
released to idle with `last_activity` stamped, `current_task_id` is cleared
exactly when the task ended COMPLETED or FAILED and retained otherwise, and an
exception escaping execution always leaves the task FAILED. -/
theorem runAgentFinish_release (t : Task) (s : AgentState) (e : Except String ExecResult)
    (n : Nat) :
    (runAgentFinish t s e n).2.status = "idle" ∧
      (runAgentFinish t s e n).2.last_activity = n ∧
      (runAgentFinish t s e n).2.agent_id = s.agent_id ∧
      ((runAgentFinish t s e n).2.current_task_id = none ↔
        ((runAgentFinish t s e n).1.status = TaskStatus.COMPLETED ∨
          (runAgentFinish t s e n).1.status = TaskStatus.FAILED)) ∧
      ((runAgentFinish t s e n).1.status ≠ TaskStatus.COMPLETED →
        (runAgentFinish t s e n).1.status ≠ TaskStatus.FAILED →
        (runAgentFinish t s e n).2.current_task_id = some t.task_id) ∧
      (∀ msg, e = Except.error msg → (runAgentFinish t s e n).1.status = TaskStatus.FAILED) := by
  unfold runAgentFinish
  cases e with
  | ok r =>
    dsimp only
    split_ifs with h1 h2 h3 <;> simp_all <;> tauto
  | error msg => simp

end RunAgentLemmas

section ClaimC5

/-- C5: every run of an agent on a resolved task — the exception path
included — persists a terminal task status (FAILED when execution raised) and
unconditionally releases the agent: status idle, `last_activity` stamped,
`current_task_id` cleared exactly when the task ended COMPLETED or FAILED and
retained otherwise.  No uncaught error can leave the task IN_PROGRESS. -/
theorem C5_unconditional_release (store : Store) (roster : List String) (agentId : String)
    (taskId : Option String) (exec : Except String ExecResult) (now : Nat)
    (state0 : AgentState) (task0 : Task)
    (hros : agentId ∈ roster)
    (hst : getAgentState store agentId = some state0)
    (ht : resolveTask store state0 agentId taskId = some task0) :
    ∃ tF sF,
      getTask (runAgent store roster agentId taskId exec now) task0.task_id = some tF ∧
        getAgentState (runAgent store roster agentId taskId exec now) agentId = some sF ∧
        sF.status = "idle" ∧ sF.last_activity = now ∧
        (sF.current_task_id = none ↔
          (tF.status = TaskStatus.COMPLETED ∨ tF.status = TaskStatus.FAILED)) ∧
        (tF.status ≠ TaskStatus.COMPLETED → tF.status ≠ TaskStatus.FAILED →
          sF.current_task_id = some task0.task_id) ∧
        (∀ msg, exec = Except.error msg → tF.status = TaskStatus.FAILED) := by
  have hsid : state0.agent_id = agentId := getAgentState_agent_id hst
  unfold runAgent
  rw [if_pos hros, hst]
  dsimp only
  rw [ht]
  dsimp only
  by_cases hp : task0.status = TaskStatus.PENDING <;>
    simp only [hp, if_true, if_false, reduceIte] <;>
    · set state1 : AgentState :=
        { state0 with
          current_task_id := some task0.task_id
          status := "working"
          last_activity := now } with hstate1
      set t1 : Task := _ with ht1
      set fin := runAgentFinish t1 state1 exec now with hfin
      obtain ⟨hidle, hlast, hagent, hclear, hkeep, herr⟩ :=
        runAgentFinish_release t1 state1 exec now
      rw [← hfin] at hidle hlast hagent hclear hkeep herr
      have htid : fin.1.task_id = task0.task_id := by
        rw [hfin, runAgentFinish_task_id]
      refine ⟨TaskRecord.load fin.1.toRecord, fin.2, ?_, ?_, ?_, ?_, ?_, ?_, ?_⟩
      · rw [getTask_saveAgentState, getTask_saveTask, if_pos htid]
      · rw [getAgentState_saveAgentState, if_pos (by rw [hagent, hstate1]; exact hsid)]
      · exact hidle
      · exact hlast
      · rw [load_toRecord]; exact hclear
      · rw [load_toRecord]
        intro h1 h2
        exact (hkeep h1 h2).trans rfl
      · rw [load_toRecord]; exact herr

/-- Witness for C5: agent `a1` is run on the explicit task `t1` and execution
raises; the persisted task is FAILED and the agent is released. -/
theorem C5_unconditional_release_witness :
    ("a1" ∈ ["a1"]) ∧ getAgentState onePendingStore "a1" = some onePendingAgent ∧
      resolveTask onePendingStore onePendingAgent "a1" (some "t1") =
        some (TaskRecord.load
          { task_id := "t1", title := "api", description := "", acceptance_criteria := [],
            priority := 1, assigned_agent_id := some "a1", status := TaskStatus.PENDING,
            dependencies := [], created_at := 0, updated_at := 0, estimated_hours := 10,
            actual_hours := 0, roadmap_phase := "phase1", artifacts := [] }) ∧
      (∃ tF sF,
        getTask
            (runAgent onePendingStore ["a1"] "a1" (some "t1") (Except.error "API exception") 9)
            (TaskRecord.load
              { task_id := "t1", title := "api", description := "", acceptance_criteria := [],
                priority := 1, assigned_agent_id := some "a1", status := TaskStatus.PENDING,
                dependencies := [], created_at := 0, updated_at := 0, estimated_hours := 10,
                actual_hours := 0, roadmap_phase := "phase1", artifacts := [] }).task_id =
          some tF ∧
          getAgentState
              (runAgent onePendingStore ["a1"] "a1" (some "t1") (Except.error "API exception") 9)
              "a1" =
            some sF ∧
          sF.status = "idle" ∧ sF.last_activity = 9 ∧
          (sF.current_task_id = none ↔
            (tF.status = TaskStatus.COMPLETED ∨ tF.status = TaskStatus.FAILED)) ∧
          (tF.status ≠ TaskStatus.COMPLETED → tF.status ≠ TaskStatus.FAILED →
            sF.current_task_id =
              some (TaskRecord.load
                { task_id := "t1", title := "api", description := "",
                  acceptance_criteria := [], priority := 1, assigned_agent_id := some "a1",
                  status := TaskStatus.PENDING, dependencies := [], created_at := 0,
                  updated_at := 0, estimated_hours := 10, actual_hours := 0,
                  roadmap_phase := "phase1", artifacts := [] }).task_id) ∧
          (∀ msg, (Except.error "API exception" : Except String ExecResult) = Except.error msg →
            tF.status = TaskStatus.FAILED)) :=
  ⟨by decide, by decide, by decide,
    C5_unconditional_release onePendingStore ["a1"] "a1" (some "t1") (Except.error "API exception") 9
      onePendingAgent _ (by decide) (by decide) (by decide)⟩

end ClaimC5

section SweepLemmas

/-- A sweep step for a task with another id does not change what `get_task`
returns for this id. -/
theorem sweepOne_getTask_ne (now : Nat) (s : Store) (u : Task) (taskId : String)
    (h : u.task_id ≠ taskId) : getTask (sweepOne now s u) taskId = getTask s taskId := by
  unfold sweepOne
  split_ifs with hc
  · rw [getTask_saveTask, if_neg (by simpa [resetToPending] using h)]
    split
    · rfl
    · split
      · rfl
      · split_ifs <;> rfl
  · rfl

/-- A sweep step for a task that the agent is not currently holding does not
change that agent's state. -/
theorem sweepOne_getAgentState (now : Nat) (s : Store) (u : Task) (agentId : String)
    (h : ∀ st, getAgentState s agentId = some st → st.current_task_id ≠ some u.task_id) :
    getAgentState (sweepOne now s u) agentId = getAgentState s agentId := by
  unfold sweepOne
  split_ifs with hc
  · rw [getAgentState_saveTask]
    cases hass : u.assigned_agent_id with
    | none => rfl
    | some aid =>
      dsimp only
      cases hag : getAgentState s aid with
      | none => rfl
      | some st =>
        dsimp only
        by_cases hcur : st.current_task_id = some u.task_id
        · rw [if_pos hcur, getAgentState_saveAgentState]
          have haid : st.agent_id = aid := getAgentState_agent_id hag
          by_cases heq : aid = agentId
          · exact absurd hcur (h st (heq ▸ hag))
          · rw [if_neg (by simpa [haid] using heq)]
        · rw [if_neg hcur]
  · rfl

/-- Folding the sweep over tasks with other ids does not change what
`get_task` returns for this id. -/
theorem foldl_sweepOne_getTask (now : Nat) (l : List Task) (s : Store) (taskId : String)
    (h : ∀ u ∈ l, u.task_id ≠ taskId) :
    getTask (l.foldl (sweepOne now) s) taskId = getTask s taskId := by
  induction l generalizing s with
  | nil => rfl
  | cons u l ih =>
    rw [List.foldl_cons, ih _ (fun v hv => h v (List.mem_cons_of_mem _ hv)),
      sweepOne_getTask_ne now s u taskId (h u (List.mem_cons_self _ _))]

/-- Folding the sweep over tasks that the agent is not holding leaves the
agent state fixed. -/
theorem foldl_sweepOne_getAgentState (now : Nat) (l : List Task) (s : Store) (agentId : String)
    (st : AgentState) (hst : getAgentState s agentId = some st)
    (h : ∀ u ∈ l, st.current_task_id ≠ some u.task_id) :
    getAgentState (l.foldl (sweepOne now) s) agentId = some st := by
  induction l generalizing s with
  | nil => exact hst
  | cons u l ih =>
    rw [List.foldl_cons]
    refine ih (sweepOne now s u) ?_ fun v hv => h v (List.mem_cons_of_mem _ hv)
    rw [sweepOne_getAgentState now s u agentId ?_]
    · exact hst
    · intro st' hst'
      rw [hst] at hst'
      cases hst'
      exact h u (List.mem_cons_self _ _)

end SweepLemmas

section ClaimC4

/-- C4: the stall sweep.  For every stored task with status IN_PROGRESS whose
`updated_at` is more than the 2-hour stall threshold old, `check_stalled_tasks`
persists the task back as PENDING with `updated_at` stamped and the in-memory
`retry_count` incremented by exactly 1 (the reset object `resetToPending`);
when the owning agent's `current_task_id` equals the task's id, that agent is
set idle with `current_task_id` cleared; and `run_all_agents` runs the sweep
before its scheduling pass. -/
theorem C4_stall_sweep (store : Store) (now : Nat) (r : TaskRecord)
    (hkeys : TasksNodupKeys store) (hr : r ∈ store.tasks)
    (hstatus : r.status = TaskStatus.IN_PROGRESS)
    (hstall : stallThreshold < now - r.updated_at) :
    getTask (checkStalledTasks now store) r.task_id =
        some (TaskRecord.load (Task.toRecord (resetToPending now (TaskRecord.load r)))) ∧
      (resetToPending now (TaskRecord.load r)).status = TaskStatus.PENDING ∧
      (resetToPending now (TaskRecord.load r)).updated_at = now ∧
      (resetToPending now (TaskRecord.load r)).retry_count =
        some ((TaskRecord.load r).retry_count.getD 0 + 1) ∧
      (∀ aid st, r.assigned_agent_id = some aid → getAgentState store aid = some st →
        st.current_task_id = some r.task_id →
        getAgentState (checkStalledTasks now store) aid =
          some { st with current_task_id := none, status := "idle", last_activity := now }) ∧
      (∀ roster execs, runAllAgents roster execs now store =
        roster.foldl (fun s aid => runAllAgentsStep roster execs now s aid)
          (checkStalledTasks now store)) := by
  set t := TaskRecord.load r with htdef
  have htid : t.task_id = r.task_id := rfl
  set snapshot :=
    (getAllTasks store).filter fun v => decide (v.status = TaskStatus.IN_PROGRESS) with hsnap
  have htmem : t ∈ snapshot := by
    rw [hsnap]
    refine List.mem_filter.mpr ⟨List.mem_map_of_mem TaskRecord.load hr, ?_⟩
    simp [htdef, TaskRecord.load, hstatus]
  have hsnodup : (snapshot.map Task.task_id).Nodup := by
    have hsub : snapshot.Sublist (getAllTasks store) := by
      rw [hsnap]; exact List.filter_sublist _
    have := (hsub.map Task.task_id).nodup ?_
    · exact this
    · rw [map_task_id_getAllTasks]; exact hkeys
  obtain ⟨l₁, l₂, hsplit⟩ := List.append_of_mem htmem
  have hnodup' : ((l₁.map Task.task_id) ++ t.task_id :: l₂.map Task.task_id).Nodup := by
    rw [← List.map_cons, ← List.map_append, ← hsplit]; exact hsnodup
  have hne₁ : ∀ u ∈ l₁, u.task_id ≠ r.task_id := by
    intro u hu heq
    have hd := List.disjoint_of_nodup_append hnodup'
    exact hd (List.mem_map_of_mem Task.task_id hu)
      (by rw [heq, ← htid]; exact List.mem_cons_self _ _)
  have hne₂ : ∀ u ∈ l₂, u.task_id ≠ r.task_id := by
    intro u hu heq
    have hnr := (List.nodup_cons.mp hnodup'.of_append_right).1
    apply hnr
    have huid : u.task_id = t.task_id := heq.trans htid.symm
    exact huid ▸ List.mem_map_of_mem Task.task_id hu
  have hfold : checkStalledTasks now store =
      l₂.foldl (sweepOne now) (sweepOne now (l₁.foldl (sweepOne now) store) t) := by
    rw [checkStalledTasks]
    rw [← hsnap, hsplit, List.foldl_append, List.foldl_cons]
  have hcond : stallThreshold < now - t.updated_at := hstall
  constructor
  · -- the task is persisted back as the reset record
    rw [hfold, foldl_sweepOne_getTask now l₂ _ r.task_id hne₂]
    rw [sweepOne]
    rw [if_pos hcond, getTask_saveTask,
      if_pos (show (resetToPending now t).task_id = r.task_id from rfl)]
  · refine ⟨rfl, rfl, rfl, ?_, ?_⟩
    · -- the owning agent is cleared
      intro aid st hass hag hcur
      rw [hfold]
      have hstep :
          getAgentState (sweepOne now (l₁.foldl (sweepOne now) store) t) aid =
            some { st with current_task_id := none, status := "idle", last_activity := now } := by
        have hag₁ : getAgentState (l₁.foldl (sweepOne now) store) aid = some st := by
          refine foldl_sweepOne_getAgentState now l₁ store aid st hag ?_
          intro u hu hx
          rw [hcur] at hx
          exact hne₁ u hu (Option.some.inj hx).symm
        rw [sweepOne, if_pos hcond, getAgentState_saveTask]
        have hasst : t.assigned_agent_id = some aid := hass
        rw [hasst]
        dsimp only
        rw [hag₁]
        dsimp only
        rw [if_pos (show st.current_task_id = some t.task_id from hcur),
          getAgentState_saveAgentState, if_pos (getAgentState_agent_id hag)]
      refine foldl_sweepOne_getAgentState now l₂ _ aid _ hstep ?_
      intro u hu hx
      simp at hx
    · intro roster execs
      rfl

end ClaimC4

section ClaimC4Witness

/-- Witness for C4: the stalled task `t3` (3 hours old at a 2-hour threshold)
is reset by the sweep and its working owner `a1` is cleared. -/
theorem C4_stall_sweep_witness :
    TasksNodupKeys stalledStore ∧ stalledRecord ∈ stalledStore.tasks ∧
      stalledRecord.status = TaskStatus.IN_PROGRESS ∧
      stallThreshold < 10800 - stalledRecord.updated_at ∧
      (getTask (checkStalledTasks 10800 stalledStore) stalledRecord.task_id =
          some (TaskRecord.load
            (Task.toRecord (resetToPending 10800 (TaskRecord.load stalledRecord)))) ∧
        (resetToPending 10800 (TaskRecord.load stalledRecord)).status = TaskStatus.PENDING ∧
        (resetToPending 10800 (TaskRecord.load stalledRecord)).updated_at = 10800 ∧
        (resetToPending 10800 (TaskRecord.load stalledRecord)).retry_count =
          some ((TaskRecord.load stalledRecord).retry_count.getD 0 + 1) ∧
        (∀ aid st, stalledRecord.assigned_agent_id = some aid →
          getAgentState stalledStore aid = some st →
          st.current_task_id = some stalledRecord.task_id →
          getAgentState (checkStalledTasks 10800 stalledStore) aid =
            some
              { st with current_task_id := none, status := "idle", last_activity := 10800 }) ∧
        (∀ roster execs, runAllAgents roster execs 10800 stalledStore =
          roster.foldl (fun s aid => runAllAgentsStep roster execs 10800 s aid)
            (checkStalledTasks 10800 stalledStore))) :=
  ⟨by decide, by decide, by decide, by decide,
    C4_stall_sweep stalledStore 10800 stalledRecord (by decide) (by decide) (by decide)
      (by decide)⟩

end ClaimC4Witness

section ClaimC3

/-- One fail-then-retry round maps the spun store to itself. -/
theorem failRetryCycle_spun_fixed : failRetryCycle 9 "a1" "t1" spunStore = spunStore := by
  decide

/-- Iterating fail-then-retry rounds from the spun store goes nowhere. -/
theorem spinCycles_spun_fixed : ∀ n, spinCycles 9 "a1" "t1" n spunStore = spunStore := by
  intro n
  induction n with
  | zero => rfl
  | succ n ih =>
    show spinCycles 9 "a1" "t1" n (failRetryCycle 9 "a1" "t1" spunStore) = spunStore
    rw [failRetryCycle_spun_fixed]
    exact ih

/-- C3, evaluated at the failing input: the retry path always resets the head
FAILED task to PENDING, because `retry_count` is never persisted — the `tasks`
table has no such column and `save_task` drops the attribute — so every loaded
task restarts at `getattr(task, 'retry_count', 0) = 0` and the guard
`retry_count <= 3` always passes.  After arbitrarily many complete
fail-then-retry rounds the task is reset to PENDING yet again (with in-memory
retry_count 1 and nothing persisted), contradicting the claimed hard cap under
which the stored record would remain FAILED with `retry_count = 3`. -/
theorem C3_retry_cap_not_persisted :
    (getFailedTasks failedStore "a1").head? = some (TaskRecord.load failedRecord) ∧
      retryStep failedStore "a1" 9 =
        (saveTask failedStore (resetToPending 9 (TaskRecord.load failedRecord)),
          some (resetToPending 9 (TaskRecord.load failedRecord))) ∧
      (resetToPending 9 (TaskRecord.load failedRecord)).status = TaskStatus.PENDING ∧
      (resetToPending 9 (TaskRecord.load failedRecord)).retry_count = some 1 ∧
      (getTask (retryStep failedStore "a1" 9).1 "t1").map Task.retry_count = some none ∧
      ∀ n : Nat,
        getTask (spinCycles 9 "a1" "t1" (n + 1) failedStore) "t1" =
          some (TaskRecord.load
            { failedRecord with status := TaskStatus.PENDING, updated_at := 9 }) := by
  refine ⟨by decide, by decide, rfl, rfl, by decide, ?_⟩
  intro n
  have h1 : spinCycles 9 "a1" "t1" (n + 1) failedStore =
      spinCycles 9 "a1" "t1" n (failRetryCycle 9 "a1" "t1" failedStore) := rfl
  have h2 : failRetryCycle 9 "a1" "t1" failedStore = spunStore := by decide
  rw [h1, h2, spinCycles_spun_fixed]
  decide

end ClaimC3

section ClaimC1

/-- C1, evaluated at the failing input: a worker response carrying the
`TASK COMPLETED` marker and a nonempty `file_changes` list whose only entry has
a `path` but no `content` passes the list-nonempty enforcement, contributes no
publishable change and hence no artifact, yet `process_agent_response` returns
status `"completed"` with no `artifacts` key, and `run_agent` persists the task
as COMPLETED with its artifacts list still empty — contradicting the claimed
no-artifact policy (and the prompt's own rule that file changes must include
both path and content or the task fails). -/
theorem C1_completed_without_artifacts :
    (processAgentResponse respNoContent (fun _ => true) (Except.ok "http://pr/9")).status =
        "completed" ∧
      (processAgentResponse respNoContent (fun _ => true) (Except.ok "http://pr/9")).artifacts =
        none ∧
      (getTask
          (runAgent onePendingStore ["a1"] "a1" (some "t1")
            (Except.ok
              (processAgentResponse respNoContent (fun _ => true) (Except.ok "http://pr/9")))
            9)
          "t1").map Task.status = some TaskStatus.COMPLETED ∧
      (getTask
          (runAgent onePendingStore ["a1"] "a1" (some "t1")
            (Except.ok
              (processAgentResponse respNoContent (fun _ => true) (Except.ok "http://pr/9")))
            9)
          "t1").map Task.artifacts = some [] :=
  ⟨by decide, by decide, by decide, by decide⟩

end ClaimC1

section ClaimC6

/-- Counterexample to C6: a free-text worker response (no markers; YAML parses
prose to a truthy string scalar, so `parsed.get(...)` raises and control lands
in the catch-all handler at line 427) yields status `"in_progress"`, not
`"failed"`; `run_agent` then matches no status branch and persists the task
still IN_PROGRESS, not FAILED. -/
theorem C6_counterexample :
    (processAgentResponse respFreeText (fun _ => true) (Except.ok "http://pr/9")).status =
        "in_progress" ∧
      (getTask
          (runAgent onePendingStore ["a1"] "a1" (some "t1")
            (Except.ok
              (processAgentResponse respFreeText (fun _ => true) (Except.ok "http://pr/9")))
            9)
          "t1").map Task.status = some TaskStatus.IN_PROGRESS ∧
      (getTask
          (runAgent onePendingStore ["a1"] "a1" (some "t1")
            (Except.ok
              (processAgentResponse respFreeText (fun _ => true) (Except.ok "http://pr/9")))
            9)
          "t1").map Task.artifacts = some [] :=
  ⟨by decide, by decide, by decide⟩

/-- C6 amended: for marker-free worker text, only a falsy parse result
(`yaml.safe_load` returning `None`) produces the Failed outcome — with the
parse-failure reason, a FAILED task and unchanged (hence still empty)
artifacts; text that parses to a truthy non-mapping, or on which the parse
raises, escapes through the exception handler with status `"in_progress"`,
leaving the claimed task's status unchanged (IN_PROGRESS) and its artifacts
untouched. -/
theorem C6_amended_unparseable (resp : WorkerResponse) (isAllowed : String → Bool)
    (publish : Except String String) (task1 : Task) (state1 : AgentState) (now : Nat)
    (h1 : resp.hasTaskCompletedMarker = false) (h2 : resp.hasBlockedMarker = false) :
    (resp.parsed = ParseOutcome.falsy →
      (processAgentResponse resp isAllowed publish).status = "failed" ∧
        (processAgentResponse resp isAllowed publish).errorMsg =
          some "Failed to parse agent response format" ∧
        (runAgentFinish task1 state1
            (Except.ok (processAgentResponse resp isAllowed publish)) now).1.status =
          TaskStatus.FAILED ∧
        (runAgentFinish task1 state1
            (Except.ok (processAgentResponse resp isAllowed publish)) now).1.artifacts =
          task1.artifacts) ∧
      ((resp.parsed = ParseOutcome.scalar ∨ resp.parsed = ParseOutcome.perror) →
        (processAgentResponse resp isAllowed publish).status = "in_progress" ∧
          (runAgentFinish task1 state1
              (Except.ok (processAgentResponse resp isAllowed publish)) now).1.status =
            task1.status ∧
          (runAgentFinish task1 state1
              (Except.ok (processAgentResponse resp isAllowed publish)) now).1.artifacts =
            task1.artifacts) := by
  have hms : markerStatus resp = "in_progress" := by
    unfold markerStatus
    rw [h1, h2]
    rfl
  constructor
  · intro hp
    have hres : processAgentResponse resp isAllowed publish =
        ⟨"failed", 5, none, some "Failed to parse agent response format", none⟩ := by
      unfold processAgentResponse
      rw [hp]
    rw [hres]
    refine ⟨rfl, rfl, ?_, ?_⟩ <;> simp [runAgentFinish]
  · intro hp
    have hres : processAgentResponse resp isAllowed publish =
        ⟨"in_progress", 5, none, some "processing exception", none⟩ := by
      unfold processAgentResponse
      rcases hp with hp | hp <;> rw [hp] <;> rw [hms]
    rw [hres]
    refine ⟨rfl, ?_, ?_⟩ <;> simp [runAgentFinish]

/-- Witness for C6's amended statement at the free-text response. -/
theorem C6_amended_unparseable_witness :
    respFreeText.hasTaskCompletedMarker = false ∧
      respFreeText.hasBlockedMarker = false ∧
      ((respFreeText.parsed = ParseOutcome.falsy →
        (processAgentResponse respFreeText (fun _ => true) (Except.ok "u")).status = "failed" ∧
          (processAgentResponse respFreeText (fun _ => true) (Except.ok "u")).errorMsg =
            some "Failed to parse agent response format" ∧
          (runAgentFinish (TaskRecord.load onePendingRecord) onePendingAgent
              (Except.ok (processAgentResponse respFreeText (fun _ => true) (Except.ok "u")))
              9).1.status = TaskStatus.FAILED ∧
          (runAgentFinish (TaskRecord.load onePendingRecord) onePendingAgent
              (Except.ok (processAgentResponse respFreeText (fun _ => true) (Except.ok "u")))
              9).1.artifacts = (TaskRecord.load onePendingRecord).artifacts) ∧
      ((respFreeText.parsed = ParseOutcome.scalar ∨ respFreeText.parsed = ParseOutcome.perror) →
        (processAgentResponse respFreeText (fun _ => true) (Except.ok "u")).status =
            "in_progress" ∧
          (runAgentFinish (TaskRecord.load onePendingRecord) onePendingAgent
              (Except.ok (processAgentResponse respFreeText (fun _ => true) (Except.ok "u")))
              9).1.status = (TaskRecord.load onePendingRecord).status ∧
          (runAgentFinish (TaskRecord.load onePendingRecord) onePendingAgent
              (Except.ok (processAgentResponse respFreeText (fun _ => true) (Except.ok "u")))
              9).1.artifacts = (TaskRecord.load onePendingRecord).artifacts)) :=
  ⟨rfl, rfl,
    C6_amended_unparseable respFreeText (fun _ => true) (Except.ok "u")
      (TaskRecord.load onePendingRecord) onePendingAgent 9 rfl rfl⟩

end ClaimC6

section ClaimC7

/-- Stability at equal keys: insertion sort by priority leaves a constant-
priority list unchanged (so the Python stable sort keeps the storage scan
order on ties). -/
theorem insertionSort_priorityLE_const (c : Int) :
    ∀ l : List Task, (∀ u ∈ l, u.priority = c) → List.insertionSort priorityLE l = l := by
  intro l
  induction l with
  | nil => intro _; rfl
  | cons x l ih =>
    intro h
    have hx : x.priority = c := h x (List.mem_cons_self _ _)
    show List.orderedInsert priorityLE x (List.insertionSort priorityLE l) = x :: l
    rw [ih fun u hu => h u (List.mem_cons_of_mem _ hu)]
    cases l with
    | nil => rfl
    | cons y l' =>
      have hy : y.priority = c := h y (List.mem_cons_of_mem _ (List.mem_cons_self _ _))
      show List.orderedInsert priorityLE x (y :: l') = x :: y :: l'
      rw [List.orderedInsert,
        if_pos (show priorityLE x y from by unfold priorityLE; rw [hx, hy])]

/-- Counterexample to C7's tie-break: after the stall sweep re-saves the
older task `t1` (INSERT OR REPLACE moves its row to the end of the scan
order), the two equal-priority PENDING tasks come back as `[t2, t1]` — the
head is the task created second, so ties are not broken by creation order. -/
theorem C7_counterexample :
    ((getAvailableTasks (checkStalledTasks 8000 orderStore) "a1").map Task.task_id =
        ["t2", "t1"]) ∧
      ((getTask (checkStalledTasks 8000 orderStore) "t1").map Task.priority = some 5) ∧
      ((getTask (checkStalledTasks 8000 orderStore) "t2").map Task.priority = some 5) ∧
      ((getTask (checkStalledTasks 8000 orderStore) "t1").map Task.created_at = some 0) ∧
      ((getTask (checkStalledTasks 8000 orderStore) "t2").map Task.created_at = some 1) ∧
      ((getTask (checkStalledTasks 8000 orderStore) "t1").map Task.status =
        some TaskStatus.PENDING) :=
  ⟨by decide, by decide, by decide, by decide, by decide, by decide⟩

/-- C7 amended: the query sorts the eligible tasks by priority ascending with
Python's stable sort, so ties follow the storage scan order (which INSERT OR
REPLACE updates reorder), not creation order; the scheduler resolves the head
of that list, and an empty list leaves the run without any claim or write. -/
theorem C7_amended_ordering (store : Store) (roster : List String) (agentId : String)
    (st : AgentState) (exec : Except String ExecResult) (now : Nat)
    (hros : agentId ∈ roster)
    (hst : getAgentState store agentId = some st)
    (hcur : st.current_task_id = none) :
    List.Sorted priorityLE (getAvailableTasks store agentId) ∧
      (getAvailableTasks store agentId).Perm (eligibleTasks store agentId) ∧
      (∀ c : Int, (∀ u ∈ eligibleTasks store agentId, u.priority = c) →
        getAvailableTasks store agentId = eligibleTasks store agentId) ∧
      resolveTask store st agentId none = (getAvailableTasks store agentId).head? ∧
      (getAvailableTasks store agentId = [] →
        runAgent store roster agentId none exec now = store) := by
  refine ⟨List.sorted_insertionSort priorityLE _, List.perm_insertionSort priorityLE _,
    ?_, ?_, ?_⟩
  · intro c hc
    exact insertionSort_priorityLE_const c _ hc
  · unfold resolveTask
    rw [hcur]
  · intro hempty
    unfold runAgent
    rw [if_pos hros, hst]
    dsimp only
    rw [show resolveTask store st agentId none = none by
      unfold resolveTask; rw [hcur, hempty]; rfl]

/-- Witness for C7's amended statement on the example store. -/
theorem C7_amended_ordering_witness :
    ("a1" ∈ ["a1"]) ∧ getAgentState onePendingStore "a1" = some onePendingAgent ∧
      onePendingAgent.current_task_id = none ∧
      (List.Sorted priorityLE (getAvailableTasks onePendingStore "a1") ∧
        (getAvailableTasks onePendingStore "a1").Perm (eligibleTasks onePendingStore "a1") ∧
        (∀ c : Int, (∀ u ∈ eligibleTasks onePendingStore "a1", u.priority = c) →
          getAvailableTasks onePendingStore "a1" = eligibleTasks onePendingStore "a1") ∧
        resolveTask onePendingStore onePendingAgent "a1" none =
          (getAvailableTasks onePendingStore "a1").head? ∧
        (getAvailableTasks onePendingStore "a1" = [] →
          runAgent onePendingStore ["a1"] "a1" none (Except.ok failResult) 9 =
            onePendingStore)) :=
  ⟨by decide, by decide, by decide,
    C7_amended_ordering onePendingStore ["a1"] "a1" onePendingAgent (Except.ok failResult) 9
      (by decide) (by decide) (by decide)⟩

end ClaimC7

section ClaimC8

/-- A sweep step over a task with another id keeps a stored row present. -/
theorem sweepOne_mem_tasks (now : Nat) (s : Store) (u : Task) (r : TaskRecord)
    (h : u.task_id ≠ r.task_id) (hr : r ∈ s.tasks) : r ∈ (sweepOne now s u).tasks := by
  unfold sweepOne
  split_ifs with hc
  · simp only [saveTask, List.mem_append, List.mem_filter]
    left
    constructor
    · split
      · exact hr
      · split
        · exact hr
        · split_ifs <;> exact hr
    · simp [resetToPending, Ne.symm h]
  · exact hr

/-- Folding the sweep over tasks with other ids keeps a stored row present. -/
theorem foldl_sweepOne_mem_tasks (now : Nat) (l : List Task) (s : Store) (r : TaskRecord)
    (h : ∀ u ∈ l, u.task_id ≠ r.task_id) (hr : r ∈ s.tasks) :
    r ∈ (l.foldl (sweepOne now) s).tasks := by
  induction l generalizing s with
  | nil => exact hr
  | cons u l ih =>
    rw [List.foldl_cons]
    exact ih (sweepOne now s u)
      (fun v hv => h v (List.mem_cons_of_mem _ hv))
      (sweepOne_mem_tasks now s u r (h u (List.mem_cons_self _ _)) hr)

/-- Every task the availability query returns is PENDING. -/
theorem mem_getAvailableTasks_status (store : Store) (agentId : String) (t : Task)
    (h : t ∈ getAvailableTasks store agentId) : t.status = TaskStatus.PENDING := by
  unfold getAvailableTasks at h
  have h1 := (List.perm_insertionSort priorityLE (eligibleTasks store agentId)).mem_iff.mp h
  unfold eligibleTasks at h1
  have h2 := (List.mem_filter.mp (List.mem_filter.mp h1).1).2
  simp only [Bool.and_eq_true, decide_eq_true_eq] at h2
  exact h2.2

/-- Every task the retry query returns is FAILED. -/
theorem mem_getFailedTasks_status (store : Store) (agentId : String) (t : Task)
    (h : t ∈ getFailedTasks store agentId) : t.status = TaskStatus.FAILED := by
  unfold getFailedTasks at h
  have h1 := (List.perm_insertionSort priorityGE _).mem_iff.mp h
  obtain ⟨row, hrow, hload⟩ := List.mem_map.mp h1
  have h2 := (List.mem_filter.mp hrow).2
  simp only [Bool.and_eq_true, decide_eq_true_eq] at h2
  rw [← hload]
  exact h2.2

/-- Counterexample to C8: `run_agent` invoked with the explicit id of a
COMPLETED task re-executes it without any status guard; a failed execution
then overwrites the terminal status with FAILED. -/
theorem C8_counterexample :
    ((getTask completedStore "t1").map Task.status = some TaskStatus.COMPLETED) ∧
      ((getTask completedStore "t1").map Task.artifacts = some ["http://pr/1"]) ∧
      ((getTask (runAgent completedStore ["a1"] "a1" (some "t1") (Except.ok failResult) 9)
          "t1").map Task.status = some TaskStatus.FAILED) :=
  ⟨by decide, by decide, by decide⟩

/-- C8 amended: the stall sweep, the availability query and the retry query
all leave COMPLETED tasks untouched — the sweep only rewrites rows that were
IN_PROGRESS (a COMPLETED row survives verbatim, artifacts included), the
availability list contains only PENDING tasks and the retry list only FAILED
ones — but task execution invoked with an explicit task id has no such guard:
it re-executes a COMPLETED task and a failed execution persists FAILED over
it. -/
theorem C8_amended_completed_terminal :
    (∀ store now r, TasksNodupKeys store → r ∈ store.tasks →
        r.status = TaskStatus.COMPLETED → r ∈ (checkStalledTasks now store).tasks) ∧
      (∀ store agentId t, t ∈ getAvailableTasks store agentId →
        t.status = TaskStatus.PENDING) ∧
      (∀ store agentId t, t ∈ getFailedTasks store agentId → t.status = TaskStatus.FAILED) ∧
      ((getTask (runAgent completedStore ["a1"] "a1" (some "t1") (Except.ok failResult) 9)
          "t1").map Task.status = some TaskStatus.FAILED) := by
  refine ⟨?_, mem_getAvailableTasks_status, mem_getFailedTasks_status, by decide⟩
  intro store now r hkeys hr hc
  unfold checkStalledTasks
  refine foldl_sweepOne_mem_tasks now _ store r ?_ hr
  intro u hu heq
  have hu1 := List.mem_filter.mp hu
  obtain ⟨row, hrow, hload⟩ := List.mem_map.mp hu1.1
  have hst : u.status = TaskStatus.IN_PROGRESS := of_decide_eq_true hu1.2
  have hrowid : row.task_id = r.task_id := by
    rw [← heq, ← hload]
    rfl
  have hrr : row = r := List.inj_on_of_nodup_map hkeys hrow hr hrowid
  rw [hrr] at hload
  rw [← hload] at hst
  have : r.status = TaskStatus.IN_PROGRESS := hst
  rw [hc] at this
  cases this

/-- Witness for C8's amended statement (the universally quantified parts are
applied to concrete stores; the last conjunct is closed already). -/
theorem C8_amended_completed_terminal_witness :
    (TasksNodupKeys completedStore ∧ completedRecord ∈ completedStore.tasks ∧
        completedRecord.status = TaskStatus.COMPLETED ∧
        completedRecord ∈ (checkStalledTasks 9 completedStore).tasks) ∧
      (TaskRecord.load onePendingRecord ∈ getAvailableTasks onePendingStore "a1" ∧
        (TaskRecord.load onePendingRecord).status = TaskStatus.PENDING) ∧
      (TaskRecord.load failedRecord ∈ getFailedTasks failedStore "a1" ∧
        (TaskRecord.load failedRecord).status = TaskStatus.FAILED) :=
  ⟨⟨by decide, by decide, by decide,
      C8_amended_completed_terminal.1 completedStore 9 completedRecord (by decide) (by decide)
        (by decide)⟩,
    ⟨by decide,
      C8_amended_completed_terminal.2.1 onePendingStore "a1" (TaskRecord.load onePendingRecord)
        (by decide)⟩,
    ⟨by decide,
      C8_amended_completed_terminal.2.2.1 failedStore "a1" (TaskRecord.load failedRecord)
        (by decide)⟩⟩

end ClaimC8

section ClaimC9

/-- Counterexample to C9: two coordinators running `run_agent("a1")`
concurrently, with both read phases executed before either write phase (the
source has no transaction or lock around lines 103-137).  Both reads resolve
the same PENDING task `t1`, so both proceed to the claim write — the second
coordinator does not observe the task as claimed, and both transition it; the
claimed at-most-one-claim property fails. -/
theorem C9_counterexample :
    coordRead onePendingStore "a1" =
        some (onePendingAgent, TaskRecord.load onePendingRecord) ∧
      (TaskRecord.load onePendingRecord).status = TaskStatus.PENDING ∧
      ((getTask
          (coordWrite onePendingStore onePendingAgent (TaskRecord.load onePendingRecord) 9)
          "t1").map Task.status = some TaskStatus.IN_PROGRESS) ∧
      ((getTask
          (coordWrite
            (coordWrite onePendingStore onePendingAgent (TaskRecord.load onePendingRecord) 9)
            onePendingAgent (TaskRecord.load onePendingRecord) 9)
          "t1").map Task.status = some TaskStatus.IN_PROGRESS) :=
  ⟨by decide, by decide, by decide, by decide⟩

/-- C9 amended: the claim is check-then-act without atomicity.  When the two
read phases overlap (both read the same store state), both coordinators
resolve the same PENDING task and both execute the claim write.  Only when one
coordinator's write completes before the other's read does the guard work: the
written store no longer lists the task as available (its row is IN_PROGRESS),
and the scheduling pass skips the agent because its persisted status is
`"working"`. -/
theorem C9_amended_claim_guard (store : Store) (agentId : String) (st : AgentState) (t : Task)
    (now : Nat) (hread : coordRead store agentId = some (st, t))
    (hp : t.status = TaskStatus.PENDING) :
    coordRead store agentId = some (st, t) ∧
      (∀ u ∈ getAvailableTasks (coordWrite store st t now) agentId, u.task_id ≠ t.task_id) ∧
      schedulerSkips (coordWrite store st t now) agentId = true := by
  have hag : getAgentState store agentId = some st := by
    unfold coordRead at hread
    cases hga : getAgentState store agentId with
    | none => rw [hga] at hread; simp at hread
    | some st' =>
      rw [hga] at hread
      dsimp only at hread
      cases hrt : resolveTask store st' agentId none with
      | none => rw [hrt] at hread; simp at hread
      | some t' =>
        rw [hrt] at hread
        simp only [Option.some.injEq, Prod.mk.injEq] at hread
        rw [hread.1]
  refine ⟨hread, ?_, ?_⟩
  · intro u hu hueq
    have hP := mem_getAvailableTasks_status _ _ _ hu
    have hmem : u ∈ getAllTasks (coordWrite store st t now) := by
      unfold getAvailableTasks at hu
      have h1 := (List.perm_insertionSort priorityLE _).mem_iff.mp hu
      unfold eligibleTasks at h1
      exact (List.mem_filter.mp (List.mem_filter.mp h1).1).1
    obtain ⟨row, hrow, hload⟩ := List.mem_map.mp hmem
    unfold coordWrite at hrow
    rw [if_pos hp] at hrow
    simp only [saveTask, tasks_saveAgentState] at hrow
    rcases List.mem_append.mp hrow with hl | hr
    · have hpred := (List.mem_filter.mp hl).2
      have hrid : row.task_id = t.task_id := by
        rw [← hueq, ← hload]
        rfl
      simp [hrid] at hpred
    · simp only [List.mem_singleton] at hr
      rw [hr] at hload
      have hIP : u.status = TaskStatus.IN_PROGRESS := by
        rw [← hload]
        rfl
      rw [hP] at hIP
      cases hIP
  · unfold schedulerSkips coordWrite
    rw [if_pos hp, getAgentState_saveTask, getAgentState_saveAgentState,
      if_pos (getAgentState_agent_id hag)]
    rfl

/-- Witness for C9's amended statement on the example store. -/
theorem C9_amended_claim_guard_witness :
    coordRead onePendingStore "a1" =
        some (onePendingAgent, TaskRecord.load onePendingRecord) ∧
      (TaskRecord.load onePendingRecord).status = TaskStatus.PENDING ∧
      (coordRead onePendingStore "a1" =
          some (onePendingAgent, TaskRecord.load onePendingRecord) ∧
        (∀ u ∈
          getAvailableTasks
            (coordWrite onePendingStore onePendingAgent (TaskRecord.load onePendingRecord) 9)
            "a1", u.task_id ≠ (TaskRecord.load onePendingRecord).task_id) ∧
        schedulerSkips
            (coordWrite onePendingStore onePendingAgent (TaskRecord.load onePendingRecord) 9)
            "a1" = true) :=
  ⟨by decide, by decide,
    C9_amended_claim_guard onePendingStore "a1" onePendingAgent
      (TaskRecord.load onePendingRecord) 9 (by decide) (by decide)⟩

end ClaimC9

end AgentSystem
